import Mathlib

/-!
Verification of the centralized token-sale backend (`src/server.js` and the
`Transaction` mongoose model).

The development shallowly embeds the two handler families of the server:

* the purchase orchestrator `POST /api/buy-tokens` (server.js lines 83-193),
  including the binary64 (JavaScript `number`) arithmetic of
  `calculateTokenAmount` (lines 75-77) and the `ethers.parseUnits` /
  `ethers.formatUnits` conversions (lines 95-96, 112-113, 123-124);
* the reporting endpoints `GET /api/transaction-history` (lines 222-271),
  `GET /api/stats` (lines 274-344) and `GET /api/export-transactions`
  (lines 347-383), over a ledger modelled as a list of records.

Numbers: JavaScript numbers are IEEE-754 binary64 values. They are embedded
as rational numbers together with an explicit round-to-nearest-even function
`round64`; every JavaScript arithmetic operation is an exact rational
operation followed by `round64`. Subnormal and overflowing magnitudes never
arise in this development, so `round64` only handles the normal range.

The MongoDB store and the ethers chain gateway are external collaborators
(spec section 1): the store is a list with exact-arithmetic aggregation, and
the gateway is a record of functions whose write outcomes are scripted per
request (`Chain`).
-/

/- `Rat.add` and friends are `@[irreducible]` in Batteries, which blocks
kernel evaluation inside `decide`; concrete rational computations in the
proofs below need them to reduce. -/
attribute [local semireducible] Rat.add Rat.mul Rat.inv Rat.sub Rat.ofScientific

namespace TokenSale

/-! ## Binary64 arithmetic (JavaScript numbers) -/

/-- Fuel-driven base-2 integer logarithm (`natLog2Aux n fuel` with `fuel ≥ n`
computes `⌊log2 n⌋` for `n ≥ 1`); written with explicit fuel so that it
reduces in the kernel. -/
def natLog2Aux : ℕ → ℕ → ℕ
  | _, 0 => 0
  | n, fuel+1 => if n < 2 then 0 else 1 + natLog2Aux (n / 2) fuel

/-- Base-2 integer logarithm: `natLog2 n = ⌊log2 n⌋` for `n ≥ 1`. -/
def natLog2 (n : ℕ) : ℕ := natLog2Aux n n

/-- `pow2 e = 2 ^ e` as a rational, for an integer (possibly negative) `e`. -/
def pow2 (e : ℤ) : ℚ :=
  if 0 ≤ e then ((2 ^ e.toNat : ℕ) : ℚ) else (((2 ^ (-e).toNat : ℕ) : ℚ))⁻¹

/-- Round a rational to the nearest integer, ties to even (the IEEE-754
default rounding used by every JavaScript arithmetic operation). -/
def roundHalfEven (q : ℚ) : ℤ :=
  let f : ℤ := q.floor
  let r : ℚ := q - (f : ℚ)
  if r < 1/2 then f
  else if 1/2 < r then f + 1
  else if f % 2 = 0 then f else f + 1

/-- Ceiling of `log2 x` for `x > 1` (and `0` for `x ≤ 1`). -/
def ceilLog2 (x : ℚ) : ℤ :=
  if x ≤ 1 then 0
  else
    let k := natLog2 x.floor.toNat
    if x = ((2 ^ k : ℕ) : ℚ) then (k : ℤ) else (k : ℤ) + 1

/-- Floor of `log2 q` for a positive rational `q`. -/
def floorLog2 (q : ℚ) : ℤ :=
  if 1 ≤ q then (natLog2 q.floor.toNat : ℤ) else -(ceilLog2 q⁻¹)

/-- IEEE-754 binary64 round-to-nearest-even on the normal range: the nearest
double (53-bit significand) to the exact rational `q`. All values arising in
this development are far inside the normal range, so subnormals and overflow
to infinity are not modelled. -/
def round64 (q : ℚ) : ℚ :=
  if q = 0 then 0
  else
    let a : ℚ := if q < 0 then -q else q
    let e : ℤ := floorLog2 a
    let m : ℤ := roundHalfEven (a * pow2 ((52 : ℤ) - e))
    (if q < 0 then (-1 : ℚ) else 1) * (m : ℚ) * pow2 (e - 52)

/-- JavaScript `a * b` on numbers: exact product, rounded to binary64. -/
def jsMul (a b : ℚ) : ℚ := round64 (a * b)

/-- JavaScript `a / b` on numbers: exact quotient, rounded to binary64. -/
def jsDiv (a b : ℚ) : ℚ := round64 (a / b)

/-! ## Token sale configuration (server.js lines 40-43) -/

/-- `TOKEN_PRICE_USDT = 1`: 1 USDT per token (server.js line 41). -/
def TOKEN_PRICE_USDT : ℚ := 1

/-- `TOKEN_DECIMALS = 18` (server.js line 42). -/
def TOKEN_DECIMALS : ℕ := 18

/-- `USDT_DECIMALS = 6` (server.js line 43). -/
def USDT_DECIMALS : ℕ := 6

/-- `calculateTokenAmount` (server.js lines 75-77):
`(usdtAmount * (10 ** TOKEN_DECIMALS)) / TOKEN_PRICE_USDT` evaluated in
JavaScript number (binary64) arithmetic. `10 ** 18` is exactly representable
in binary64, so the exponentiation is modelled as `round64 (10 ^ 18)`. -/
def calculateTokenAmount (usdtAmount : ℚ) : ℚ :=
  jsDiv (jsMul usdtAmount (round64 ((10 : ℚ) ^ TOKEN_DECIMALS))) TOKEN_PRICE_USDT

end TokenSale

namespace TokenSale

/-! ## Ledger data model (models/Transaction.js) -/

/-- The `type` enum of the Transaction schema: `['BUY', 'APPROVE']`. -/
inductive TxType where
  | BUY
  | APPROVE
deriving DecidableEq, Repr

/-- The `status` enum of the Transaction schema:
`['SUCCESS', 'FAILED', 'PENDING']`. -/
inductive TxStatus where
  | SUCCESS
  | FAILED
  | PENDING
deriving DecidableEq, Repr

/-- One persisted Transaction document (models/Transaction.js). The
decimal-as-string fields `amount` and `usdtAmount` are modelled by their
numeric values; `timestamp` is milliseconds since the epoch (a mongoose
`Date`). -/
structure TxRecord where
  buyerAddress : String
  type : TxType
  amount : ℚ
  status : TxStatus
  txHash : String
  timestamp : ℕ
  tokenPrice : ℚ
  usdtAmount : ℚ
deriving DecidableEq, Repr

end TokenSale

namespace TokenSale

/-! ## ethers conversions

`ethers.parseUnits(x.toString(), d)` and `ethers.formatUnits(v, d)` as used
on server.js lines 95-96, 107-108, 112-113, 119, 123-124. -/

/-- Model of `ethers.parseUnits(x.toString(), d)` for a JavaScript number
`x`: `Number.prototype.toString` prints a decimal string only for
`-10^21 < x < 10^21` (outside, it prints exponent notation such as
`"1e+21"`, which `parseUnits` rejects), and `parseUnits` accepts at most `d`
fractional digits. On success the result is the integer `x * 10^d`.
`toString` prints the shortest decimal that reads back as `x`; its value
differs from the exact binary value of `x` by strictly less than half an
ulp, which never changes any comparison or bound in this development, so the
composition is modelled on the value of `x` itself. -/
def parseUnitsOfToString (x : ℚ) (d : ℕ) : Option ℤ :=
  if -((10 : ℚ) ^ 21) < x ∧ x < (10 : ℚ) ^ 21 ∧ (x * (10 : ℚ) ^ d).den = 1 then
    some (x * (10 : ℚ) ^ d).num
  else none

/-- Model of `ethers.formatUnits(v, d)` by the numeric value of the decimal
string it returns: `v / 10^d`. (The library renders a whole-number value
with a trailing `".0"`, e.g. `"80.0"`; the rendering is abstracted to the
value.) -/
def formatUnits (v : ℤ) (d : ℕ) : ℚ := (v : ℚ) / (10 : ℚ) ^ d

/-! ## Chain gateway -/

/-- Error classification keys of the catch-all handler
(server.js lines 180-186): `error.code` values with, for `CALL_EXCEPTION`,
the optional revert `reason`, and `other` for every remaining chain or store
error (e.g. the `INVALID_ARGUMENT`/`NUMERIC_FAULT` errors thrown by
`parseUnits`). -/
inductive JsError where
  | INSUFFICIENT_FUNDS
  | UNPREDICTABLE_GAS_LIMIT
  | CALL_EXCEPTION (reason : Option String)
  | other (msg : String)
deriving DecidableEq, Repr

/-- The chain gateway: reads (`balanceOf`, `allowance`, both uint256) and
scripted outcomes for the two writes. A write outcome is the confirmed
transaction hash (`tx.wait()` included) or the error the call rejects
with. -/
structure Chain where
  balanceOf : String → ℕ
  allowance : String → String → ℕ
  transferFrom : String → String → ℤ → Except JsError String
  mint : String → ℤ → Except JsError String

/-! ## The purchase orchestrator (`POST /api/buy-tokens`, lines 83-193) -/

/-- The request body `{ usdtAmount, buyerAddress }`: each field either absent
or a JSON number / string. The decimal sent for `usdtAmount` is assumed
written with at most 15 significant digits, so that parsing it to binary64
and printing it back (`usdtAmount.toString()`, line 95) returns the same
decimal. -/
structure BuyRequest where
  usdtAmount : Option ℚ
  buyerAddress : Option String
deriving DecidableEq, Repr

/-- Observable side effects of one handler run, in order: each `.save r` is
a `pendingTx.save()` with the document's state at that moment (lines 138,
159, 170), and the chain writes are the `transferFrom` (line 142) and `mint`
(line 150) calls. -/
inductive Event where
  | save (r : TxRecord)
  | chainTransferFrom (owner recipient : String) (amount : ℤ)
  | chainMint (recipient : String) (amount : ℤ)
deriving DecidableEq, Repr

/-- The JSON responses of the buy-tokens handler, one constructor per
`res.json` site. `insufficientBalance`/`insufficientAllowance` carry the
values of the formatted `required`/`available` (resp. `required`/`approved`)
fields. -/
inductive BuyResponse where
  | missingParams
  | insufficientBalance (required available : ℚ)
  | insufficientAllowance (required approved : ℚ)
  | purchaseSuccess (transactionHash : String) (tokenAmount : ℚ)
  | insufficientGas
  | gasLimitError
  | chainCallFailed (reason : Option String)
  | serverError
deriving DecidableEq, Repr

/-- HTTP status of each buy-tokens response (lines 88, 110, 121, 161, 181,
183, 185, 188). -/
def BuyResponse.statusCode : BuyResponse → ℕ
  | .purchaseSuccess _ _ => 200
  | .serverError => 500
  | _ => 400

/-- The catch-all error classification (server.js lines 179-191). -/
def classifyError : JsError → BuyResponse
  | .INSUFFICIENT_FUNDS => .insufficientGas
  | .UNPREDICTABLE_GAS_LIMIT => .gasLimitError
  | .CALL_EXCEPTION r => .chainCallFailed r
  | .other _ => .serverError

/-- The write sequence of the handler once all checks passed (server.js
lines 128-172): save the PENDING record, `transferFrom` buyer→admin, then
`mint` to the buyer; on success update the record to SUCCESS with the mint
hash, on either failure update it to FAILED (txHash left untouched) and let
the catch-all classify the error. -/
def executePurchase (chain : Chain) (adminAddress buyer : String)
    (usdtWd tokenWd : ℤ) (pending : TxRecord) (ledger : List TxRecord) :
    List TxRecord × List Event × BuyResponse :=
  match chain.transferFrom buyer adminAddress usdtWd with
  | .error e =>
      let failed := { pending with status := TxStatus.FAILED }
      (ledger ++ [failed],
       [.save pending, .chainTransferFrom buyer adminAddress usdtWd, .save failed],
       classifyError e)
  | .ok _ =>
      match chain.mint buyer tokenWd with
      | .error e =>
          let failed := { pending with status := TxStatus.FAILED }
          (ledger ++ [failed],
           [.save pending, .chainTransferFrom buyer adminAddress usdtWd,
            .chainMint buyer tokenWd, .save failed],
           classifyError e)
      | .ok mintHash =>
          let succ := { pending with status := TxStatus.SUCCESS, txHash := mintHash }
          (ledger ++ [succ],
           [.save pending, .chainTransferFrom buyer adminAddress usdtWd,
            .chainMint buyer tokenWd, .save succ],
           .purchaseSuccess mintHash pending.amount)

/-- The `POST /api/buy-tokens` handler (server.js lines 83-193). Returns the
ledger after the run, the side-effect trace, and the response.

Steps, in source order: the truthiness check on both body fields (line 87;
`0` and `""` are falsy), `calculateTokenAmount` (line 92), the two
`parseUnits` conversions (lines 95-96; a throw lands in the catch-all, whose
`error.code` matches none of the three handled codes, hence a 500), the
balance check (lines 106-115), the allowance check (lines 118-126), then the
PENDING record insert and the write sequence (lines 128-172). -/
def buyTokens (adminAddress : String) (now : ℕ) (chain : Chain)
    (ledger : List TxRecord) (req : BuyRequest) :
    List TxRecord × List Event × BuyResponse :=
  match req.usdtAmount, req.buyerAddress with
  | some q, some buyer =>
    if q = 0 ∨ buyer = "" then (ledger, [], .missingParams)
    else
      let tokenAmount := calculateTokenAmount (round64 q)
      match parseUnitsOfToString q USDT_DECIMALS with
      | none => (ledger, [], .serverError)
      | some usdtWd =>
        match parseUnitsOfToString tokenAmount TOKEN_DECIMALS with
        | none => (ledger, [], .serverError)
        | some tokenWd =>
          if (chain.balanceOf buyer : ℤ) < usdtWd then
            (ledger, [],
             .insufficientBalance (formatUnits usdtWd USDT_DECIMALS)
               (formatUnits (chain.balanceOf buyer : ℤ) USDT_DECIMALS))
          else if (chain.allowance buyer adminAddress : ℤ) < usdtWd then
            (ledger, [],
             .insufficientAllowance (formatUnits usdtWd USDT_DECIMALS)
               (formatUnits (chain.allowance buyer adminAddress : ℤ) USDT_DECIMALS))
          else
            let pending : TxRecord :=
              { buyerAddress := buyer, type := TxType.BUY, amount := tokenAmount,
                status := TxStatus.PENDING, txHash := "pending", timestamp := now,
                tokenPrice := TOKEN_PRICE_USDT, usdtAmount := q }
            executePurchase chain adminAddress buyer usdtWd tokenWd pending ledger
  | _, _ => (ledger, [], .missingParams)

end TokenSale

namespace TokenSale

/-! ## Reporting: transaction history (`GET /api/transaction-history`,
server.js lines 222-271) -/

/-- Query parameters of the history endpoint. `page` and `limit` arrive as
numeric strings, modelled as naturals; `type`/`status` as the enum values
they are compared against (a value outside the enum matches no record and is
not modelled); `startDate`/`endDate` as epoch milliseconds. -/
structure HistoryQuery where
  address : Option String
  page : Option ℕ
  limit : Option ℕ
  type : Option TxType
  status : Option TxStatus
  startDate : Option ℕ
  endDate : Option ℕ
deriving DecidableEq, Repr

/-- The mongo query built on lines 239-246: buyer address plus the optional
`type`, `status` and inclusive `timestamp` range filters. -/
def matchesHistory (qy : HistoryQuery) (addr : String) (r : TxRecord) : Bool :=
  decide (r.buyerAddress = addr) &&
  (match qy.type with | none => true | some t => decide (r.type = t)) &&
  (match qy.status with | none => true | some s => decide (r.status = s)) &&
  (match qy.startDate with | none => true | some s => decide (s ≤ r.timestamp)) &&
  (match qy.endDate with | none => true | some e => decide (r.timestamp ≤ e))

/-- `.sort({ timestamp: -1 })`: newest first. (MongoDB leaves the relative
order of equal keys unspecified; the model fixes a stable sort.) -/
def sortNewestFirst (l : List TxRecord) : List TxRecord :=
  l.insertionSort (fun a b => b.timestamp ≤ a.timestamp)

/-- Responses of the history endpoint: 400 when `address` is absent (or the
empty, falsy string), else the page of records with the pagination
metadata. -/
inductive HistoryResponse where
  | badRequest
  | ok (transactions : List TxRecord) (total page limit pages : ℕ)
deriving DecidableEq, Repr

/-- The `GET /api/transaction-history` handler (server.js lines 222-271):
defaults `page = 1`, `limit = 10`; `skip = (page - 1) * limit`; the
transactions are the matching records sorted newest-first with skip/limit
applied, `total` counts all matching records, and
`pages = Math.ceil(total / limit)` (written as natural ceiling division;
the handler is only specified for a positive `limit` — with `limit` 0
JavaScript produces `Infinity`/`NaN`, outside this model). -/
def getHistory (ledger : List TxRecord) (qy : HistoryQuery) : HistoryResponse :=
  match qy.address with
  | none => .badRequest
  | some addr =>
    if addr = "" then .badRequest
    else
      let page := qy.page.getD 1
      let limit := qy.limit.getD 10
      let matching := ledger.filter (matchesHistory qy addr)
      let transactions := ((sortNewestFirst matching).drop ((page - 1) * limit)).take limit
      .ok transactions matching.length page limit ((matching.length + limit - 1) / limit)

/-! ## Reporting: sale statistics (`GET /api/stats`, lines 274-344) -/

/-- Milliseconds per calendar day: `$dateToString` with format `%Y-%m-%d`
groups timestamps by UTC day, modelled as `timestamp / msPerDay`. -/
def msPerDay : ℕ := 86400000

/-- Query parameters of the stats endpoint (optional date range). -/
structure StatsQuery where
  startDate : Option ℕ
  endDate : Option ℕ
deriving DecidableEq, Repr

/-- The `$match` stage shared by the three aggregations (lines 290, 303,
316): the date filter plus `type: 'BUY', status: 'SUCCESS'`. -/
def statsMatch (qy : StatsQuery) (r : TxRecord) : Bool :=
  (match qy.startDate with | none => true | some s => decide (s ≤ r.timestamp)) &&
  (match qy.endDate with | none => true | some e => decide (r.timestamp ≤ e)) &&
  decide (r.type = TxType.BUY) && decide (r.status = TxStatus.SUCCESS)

/-- The `totalStats` group (lines 289-300): sums, count and average over the
matching records, all on the numeric values of the stored decimal strings
(`$toDouble`; the store's aggregation arithmetic is modelled exactly). -/
structure TotalStats where
  totalTokensSold : ℚ
  totalUsdtRaised : ℚ
  transactionCount : ℕ
  averagePurchaseAmount : ℚ
deriving DecidableEq, Repr

/-- One `dailyStats` group (lines 302-313), keyed by calendar day. -/
structure DailyStat where
  day : ℕ
  tokensSold : ℚ
  usdtRaised : ℚ
  transactionCount : ℕ
deriving DecidableEq, Repr

/-- One `topBuyers` group (lines 315-327), keyed by buyer address. -/
structure BuyerStat where
  buyerAddress : String
  totalTokens : ℚ
  totalUsdt : ℚ
  transactionCount : ℕ
deriving DecidableEq, Repr

/-- The stats response body (lines 330-339). -/
structure StatsResponse where
  totalStats : TotalStats
  dailyStats : List DailyStat
  topBuyers : List BuyerStat
deriving DecidableEq, Repr

/-- The `GET /api/stats` handler (server.js lines 274-344): the three
aggregations over the matching SUCCESS BUY records, with `totalStats`
falling back to the all-zero object when the group stage produced no row
(line 331), `dailyStats` sorted by day ascending (line 312) and `topBuyers`
sorted by total USDT spent descending and capped at 10 (lines 325-326). -/
def getStats (ledger : List TxRecord) (qy : StatsQuery) : StatsResponse :=
  let m := ledger.filter (statsMatch qy)
  let totalStats : TotalStats :=
    if m.isEmpty then ⟨0, 0, 0, 0⟩
    else
      ⟨(m.map (·.amount)).sum, (m.map (·.usdtAmount)).sum, m.length,
       (m.map (·.usdtAmount)).sum / (m.length : ℚ)⟩
  let days := ((m.map (fun r => r.timestamp / msPerDay)).dedup).insertionSort (· ≤ ·)
  let dailyStats := days.map (fun d =>
    let g := m.filter (fun r => decide (r.timestamp / msPerDay = d))
    (⟨d, (g.map (·.amount)).sum, (g.map (·.usdtAmount)).sum, g.length⟩ : DailyStat))
  let buyers := (m.map (·.buyerAddress)).dedup
  let buyerRows := buyers.map (fun b =>
    let g := m.filter (fun r => decide (r.buyerAddress = b))
    (⟨b, (g.map (·.amount)).sum, (g.map (·.usdtAmount)).sum, g.length⟩ : BuyerStat))
  let topBuyers :=
    (buyerRows.insertionSort (fun a b => b.totalUsdt ≤ a.totalUsdt)).take 10
  ⟨totalStats, dailyStats, topBuyers⟩

/-! ## Reporting: export (`GET /api/export-transactions`, lines 347-383) -/

/-- The export handler's record set (lines 355-356): all records of the
buyer, newest first. The CSV rendering (lines 358-375) writes exactly these
records row by row and is not otherwise modelled; the JSON branch returns
them as-is. -/
def exportTransactions (ledger : List TxRecord) (address : String) :
    List TxRecord :=
  sortNewestFirst (ledger.filter (fun r => decide (r.buyerAddress = address)))

/-! ## The whole HTTP surface -/

/-- One incoming request, one constructor per route of server.js. -/
inductive ApiRequest where
  | buyTokens (req : BuyRequest)
  | tokenPrice
  | usdtAllowance (address : Option String)
  | transactionHistory (qy : HistoryQuery)
  | stats (qy : StatsQuery)
  | exportTransactions (address : Option String) (format : String)
deriving DecidableEq, Repr

/-- One response, tagged per route (`badRequest` for a missing address on
the allowance/export routes). -/
inductive ApiOutput where
  | buy (events : List Event) (resp : BuyResponse)
  | price (price : ℚ) (decimals : ℕ)
  | allowance (value : ℚ)
  | history (resp : HistoryResponse)
  | statsOut (resp : StatsResponse)
  | exported (transactions : List TxRecord)
  | badRequest

/-- One request against the server: the ledger after handling it, plus the
response. Only the buy-tokens route ever touches the ledger; every
reporting route only reads it (`find`, `countDocuments`, `aggregate`). -/
def apiStep (adminAddress : String) (now : ℕ) (chain : Chain)
    (ledger : List TxRecord) : ApiRequest → List TxRecord × ApiOutput
  | .buyTokens req =>
      match buyTokens adminAddress now chain ledger req with
      | (l, events, resp) => (l, .buy events resp)
  | .tokenPrice => (ledger, .price TOKEN_PRICE_USDT TOKEN_DECIMALS)
  | .usdtAllowance none => (ledger, .badRequest)
  | .usdtAllowance (some a) =>
      if a = "" then (ledger, .badRequest)
      else (ledger, .allowance (formatUnits (chain.allowance a adminAddress : ℤ) USDT_DECIMALS))
  | .transactionHistory qy => (ledger, .history (getHistory ledger qy))
  | .stats qy => (ledger, .statsOut (getStats ledger qy))
  | .exportTransactions none _ => (ledger, .badRequest)
  | .exportTransactions (some a) _ =>
      if a = "" then (ledger, .badRequest)
      else (ledger, .exported (exportTransactions ledger a))

end TokenSale

namespace TokenSale

/-! ## Concrete fixtures used by witnesses and counterexamples -/

/-- A chain gateway with constant balances/allowances and scripted write
outcomes, for concrete runs. -/
def exChain (bal alw : ℕ) (tf mi : Except JsError String) : Chain :=
  ⟨fun _ => bal, fun _ _ => alw, fun _ _ _ => tf, fun _ _ => mi⟩

/-- A successful BUY record, for concrete ledgers. -/
def sampleSuccess : TxRecord := ⟨"0xa", .BUY, 10, .SUCCESS, "0xh1", 1000, 1, 10⟩

/-- A failed BUY record (txHash still the sentinel), for concrete ledgers. -/
def sampleFailed : TxRecord := ⟨"0xc", .BUY, 5, .FAILED, "pending", 3000, 1, 5⟩

/-! ## C2: the token-amount conversion -/

set_option maxRecDepth 8000 in
/-- C2 counterexample: for the reasonable decimal `usdtAmount = 1.1` (parsed
to the binary64 value `round64 (11/10)`), `calculateTokenAmount` returns
`1100000000000000128`, which is not `1.1 / tokenPrice × 10^18 =
1.1 × 10^18`: the claimed lossless conversion fails, exactly the
JavaScript-number precision loss spec §9 warns about. -/
theorem calculateTokenAmount_precision_loss :
    calculateTokenAmount (round64 (11/10)) = 1100000000000000128 ∧
    calculateTokenAmount (round64 (11/10)) ≠
      (11/10) / TOKEN_PRICE_USDT * (10 : ℚ) ^ TOKEN_DECIMALS := by
  exact ⟨by decide, by decide⟩

/-- C2 (amended): the token amount is computed as
`usdtAmount / tokenPrice × 10^18` in binary64 arithmetic; the conversion is
exact precisely for amounts whose scaled product is representable in
binary64 — whenever `round64` fixes `usdtAmount * 10^18` (in particular for
whole-number amounts), `calculateTokenAmount` equals the exact value. For
other reasonable decimals it differs, e.g. `1.1`
(`calculateTokenAmount_precision_loss`). -/
theorem calculateTokenAmount_exact_of_representable (a : ℚ)
    (h : round64 (a * (10 : ℚ) ^ TOKEN_DECIMALS) = a * (10 : ℚ) ^ TOKEN_DECIMALS) :
    calculateTokenAmount a = a / TOKEN_PRICE_USDT * (10 : ℚ) ^ TOKEN_DECIMALS := by
  have h10 : round64 ((10 : ℚ) ^ TOKEN_DECIMALS) = (10 : ℚ) ^ TOKEN_DECIMALS := by decide
  unfold calculateTokenAmount jsMul jsDiv TOKEN_PRICE_USDT
  simp only [h10, div_one, h]

set_option maxRecDepth 8000 in
/-- Witness for `calculateTokenAmount_exact_of_representable` at the
whole-number amount 7. -/
theorem calculateTokenAmount_exact_of_representable_witness :
    round64 ((7 : ℚ) * (10 : ℚ) ^ TOKEN_DECIMALS) = (7 : ℚ) * (10 : ℚ) ^ TOKEN_DECIMALS ∧
    calculateTokenAmount 7 = 7 / TOKEN_PRICE_USDT * (10 : ℚ) ^ TOKEN_DECIMALS :=
  ⟨by decide, calculateTokenAmount_exact_of_representable 7 (by decide)⟩

/-! ## C10: stats with no matching records -/

/-- C10: when no record passes the stats `$match` stage, the aggregation
returns no row and the handler responds with the explicit all-zero
`totalStats` fallback (server.js lines 330-336), never a null or absent
object. -/
theorem getStats_empty_totalStats (ledger : List TxRecord) (qy : StatsQuery)
    (h : ledger.filter (statsMatch qy) = []) :
    (getStats ledger qy).totalStats =
      ⟨0, 0, 0, 0⟩ := by
  unfold getStats
  rw [h]
  rfl

/-- Witness for `getStats_empty_totalStats`: a ledger holding only a FAILED
record, which the SUCCESS-BUY `$match` excludes. -/
theorem getStats_empty_totalStats_witness :
    (getStats [sampleFailed] ⟨none, none⟩).totalStats = ⟨0, 0, 0, 0⟩ :=
  getStats_empty_totalStats [sampleFailed] ⟨none, none⟩ (by decide)

end TokenSale

namespace TokenSale

/-! ## C1: the success path -/

set_option maxRecDepth 8000 in
/-- C1 counterexample: for the request `usdtAmount = 1.13` with ample
balance and allowance (2 USDT each) and both writes succeeding, the run
completes successfully but the recorded and returned amount is
`1129999999999999872` — the binary64 value of `1.13 × 10^18` — and not
`usdtAmount / tokenPrice` scaled to token decimals, which is
`1.13 × 10^18 = 1130000000000000000`. -/
theorem buyTokens_success_amount_mismatch :
    buyTokens "0xadmin" 7 (exChain 2000000 2000000 (.ok "0xtransfer") (.ok "0xmint")) []
        ⟨some (113/100), some "0xbuyer"⟩ =
      ([⟨"0xbuyer", .BUY, 1129999999999999872, .SUCCESS, "0xmint", 7, 1, 113/100⟩],
       [.save ⟨"0xbuyer", .BUY, 1129999999999999872, .PENDING, "pending", 7, 1, 113/100⟩,
        .chainTransferFrom "0xbuyer" "0xadmin" 1130000,
        .chainMint "0xbuyer" 1129999999999999872000000000000000000,
        .save ⟨"0xbuyer", .BUY, 1129999999999999872, .SUCCESS, "0xmint", 7, 1, 113/100⟩],
       .purchaseSuccess "0xmint" 1129999999999999872) ∧
    (1129999999999999872 : ℚ) ≠ (113/100) / TOKEN_PRICE_USDT * (10 : ℚ) ^ TOKEN_DECIMALS :=
  ⟨by decide, by decide⟩

/-- C1 (amended): for every purchase request whose two fields are present
and truthy, whose `usdtAmount` the handler can convert (at most 6 decimal
places and a scaled token amount below `10^21`, i.e. below 1000 USDT), whose
buyer balance and allowance cover the scaled amount, and whose two chain
writes both succeed, the handler appends exactly one ledger record with
status SUCCESS, `amount` equal to the binary64-computed token amount
`calculateTokenAmount` (which can differ from the exact
`usdtAmount / tokenPrice` scaling, see `buyTokens_success_amount_mismatch`),
and `txHash` equal to the mint transaction's hash, and responds success with
that hash and token amount. -/
theorem buyTokens_success_path
    (admin : String) (now : ℕ) (chain : Chain) (ledger : List TxRecord)
    (q : ℚ) (buyer : String) (u t : ℤ) (h1 h2 : String)
    (hq : q ≠ 0) (hb : buyer ≠ "")
    (hu : parseUnitsOfToString q USDT_DECIMALS = some u)
    (ht : parseUnitsOfToString (calculateTokenAmount (round64 q)) TOKEN_DECIMALS = some t)
    (hbal : ¬((chain.balanceOf buyer : ℤ) < u))
    (halw : ¬((chain.allowance buyer admin : ℤ) < u))
    (htf : chain.transferFrom buyer admin u = .ok h1)
    (hmint : chain.mint buyer t = .ok h2) :
    buyTokens admin now chain ledger ⟨some q, some buyer⟩ =
      (ledger ++ [⟨buyer, .BUY, calculateTokenAmount (round64 q), .SUCCESS, h2, now,
        TOKEN_PRICE_USDT, q⟩],
       [.save ⟨buyer, .BUY, calculateTokenAmount (round64 q), .PENDING, "pending", now,
          TOKEN_PRICE_USDT, q⟩,
        .chainTransferFrom buyer admin u, .chainMint buyer t,
        .save ⟨buyer, .BUY, calculateTokenAmount (round64 q), .SUCCESS, h2, now,
          TOKEN_PRICE_USDT, q⟩],
       .purchaseSuccess h2 (calculateTokenAmount (round64 q))) := by
  simp only [buyTokens, executePurchase, hu, ht, htf, hmint,
    if_neg (show ¬(q = 0 ∨ buyer = "") from not_or.mpr ⟨hq, hb⟩),
    if_neg hbal, if_neg halw]

set_option maxRecDepth 8000 in
/-- Witness for `buyTokens_success_path`: a 2-USDT purchase with balance and
allowance of 3 USDT and both writes succeeding. -/
theorem buyTokens_success_path_witness :
    buyTokens "0xadmin" 7 (exChain 3000000 3000000 (.ok "0xtransfer") (.ok "0xmint")) []
        ⟨some 2, some "0xbuyer"⟩ =
      ([⟨"0xbuyer", .BUY, calculateTokenAmount (round64 2), .SUCCESS, "0xmint", 7,
         TOKEN_PRICE_USDT, 2⟩],
       [.save ⟨"0xbuyer", .BUY, calculateTokenAmount (round64 2), .PENDING, "pending", 7,
          TOKEN_PRICE_USDT, 2⟩,
        .chainTransferFrom "0xbuyer" "0xadmin" 2000000,
        .chainMint "0xbuyer" (2 * 10 ^ 36),
        .save ⟨"0xbuyer", .BUY, calculateTokenAmount (round64 2), .SUCCESS, "0xmint", 7,
          TOKEN_PRICE_USDT, 2⟩],
       .purchaseSuccess "0xmint" (calculateTokenAmount (round64 2))) :=
  buyTokens_success_path "0xadmin" 7 _ [] 2 "0xbuyer" 2000000 (2 * 10 ^ 36)
    "0xtransfer" "0xmint" (by decide) (by decide) (by decide) (by decide)
    (by decide) (by decide) rfl rfl

/-! ## C3: insufficient balance -/

set_option maxRecDepth 8000 in
/-- C3 counterexample: a 1000-USDT request from a buyer with zero balance is
answered 500 (`serverError`), not 400 with the insufficient-balance error:
`calculateTokenAmount` yields `10^21`, JavaScript prints it as `"1e+21"`,
`parseUnits` rejects that string, and the handler never reaches the balance
check — even though the balance (0) is below the requested amount. -/
theorem buyTokens_balance_check_bypassed :
    buyTokens "0xadmin" 7 (exChain 0 0 (.ok "0xa") (.ok "0xb")) []
        ⟨some 1000, some "0xbuyer"⟩ = ([], [], .serverError) ∧
    ((exChain 0 0 (.ok "0xa") (.ok "0xb")).balanceOf "0xbuyer" : ℤ) < 1000 * 10 ^ 6 ∧
    BuyResponse.serverError.statusCode = 500 :=
  ⟨by decide, by decide, rfl⟩

/-- C3 (amended): for every purchase request whose fields are present and
truthy and whose `usdtAmount` the handler can convert (at most 6 decimal
places, scaled token amount below `10^21`), if the buyer's balance read from
the chain gateway is below the scaled amount then the handler stops before
any chain write or ledger insert and responds 400 with the
insufficient-balance error carrying the required and available amounts. -/
theorem buyTokens_insufficient_balance
    (admin : String) (now : ℕ) (chain : Chain) (ledger : List TxRecord)
    (q : ℚ) (buyer : String) (u t : ℤ)
    (hq : q ≠ 0) (hb : buyer ≠ "")
    (hu : parseUnitsOfToString q USDT_DECIMALS = some u)
    (ht : parseUnitsOfToString (calculateTokenAmount (round64 q)) TOKEN_DECIMALS = some t)
    (hbal : (chain.balanceOf buyer : ℤ) < u) :
    buyTokens admin now chain ledger ⟨some q, some buyer⟩ =
      (ledger, [],
       .insufficientBalance (formatUnits u USDT_DECIMALS)
         (formatUnits (chain.balanceOf buyer : ℤ) USDT_DECIMALS)) ∧
    (BuyResponse.insufficientBalance (formatUnits u USDT_DECIMALS)
      (formatUnits (chain.balanceOf buyer : ℤ) USDT_DECIMALS)).statusCode = 400 := by
  refine ⟨?_, rfl⟩
  simp only [buyTokens, hu, ht,
    if_neg (show ¬(q = 0 ∨ buyer = "") from not_or.mpr ⟨hq, hb⟩), if_pos hbal]

set_option maxRecDepth 8000 in
/-- Witness for `buyTokens_insufficient_balance`: an 80-USDT request with a
10-USDT balance is rejected with required 80, available 10. -/
theorem buyTokens_insufficient_balance_witness :
    buyTokens "0xadmin" 7 (exChain 10000000 0 (.ok "0xa") (.ok "0xb")) []
        ⟨some 80, some "0xbuyer"⟩ = ([], [], .insufficientBalance 80 10) := by
  rw [(buyTokens_insufficient_balance "0xadmin" 7 (exChain 10000000 0 (.ok "0xa") (.ok "0xb"))
      [] 80 "0xbuyer" 80000000 (80 * 10 ^ 36) (by decide) (by decide) (by decide) (by decide)
      (by decide)).1]
  decide

/-! ## C4: insufficient allowance -/

set_option maxRecDepth 8000 in
/-- C4 counterexample: a 1000-USDT request from a buyer with a 2000-USDT
balance but zero allowance is answered 500 (`serverError`), not 400 with the
insufficient-allowance error: the `parseUnits` rejection of `"1e+21"`
happens before the allowance check. -/
theorem buyTokens_allowance_check_bypassed :
    buyTokens "0xadmin" 7 (exChain (2 * 10 ^ 9) 0 (.ok "0xa") (.ok "0xb")) []
        ⟨some 1000, some "0xbuyer"⟩ = ([], [], .serverError) ∧
    ¬(((exChain (2 * 10 ^ 9) 0 (.ok "0xa") (.ok "0xb")).balanceOf "0xbuyer" : ℤ) <
        1000 * 10 ^ 6) ∧
    ((exChain (2 * 10 ^ 9) 0 (.ok "0xa") (.ok "0xb")).allowance "0xbuyer" "0xadmin" : ℤ) <
      1000 * 10 ^ 6 ∧
    BuyResponse.serverError.statusCode = 500 :=
  ⟨by decide, by decide, by decide, rfl⟩

set_option maxRecDepth 8000 in
/-- C4 (amended): for every purchase request whose fields are present and
truthy and whose `usdtAmount` the handler can convert (at most 6 decimal
places, scaled token amount below `10^21`), if the balance suffices but the
allowance approved for the privileged signer is below the scaled amount,
the handler stops before any chain write or ledger insert and responds 400
with the insufficient-allowance error carrying the required and approved
amounts; in particular a buyer with balance 100 and allowance 50 requesting
80 gets 400 with required 80 and approved 50 (values of the formatted
strings, which the gateway library renders as `"80.0"`/`"50.0"`). -/
theorem buyTokens_insufficient_allowance :
    (∀ (admin : String) (now : ℕ) (chain : Chain) (ledger : List TxRecord)
        (q : ℚ) (buyer : String) (u t : ℤ),
      q ≠ 0 → buyer ≠ "" →
      parseUnitsOfToString q USDT_DECIMALS = some u →
      parseUnitsOfToString (calculateTokenAmount (round64 q)) TOKEN_DECIMALS = some t →
      ¬((chain.balanceOf buyer : ℤ) < u) →
      (chain.allowance buyer admin : ℤ) < u →
      buyTokens admin now chain ledger ⟨some q, some buyer⟩ =
        (ledger, [],
         .insufficientAllowance (formatUnits u USDT_DECIMALS)
           (formatUnits (chain.allowance buyer admin : ℤ) USDT_DECIMALS)) ∧
      (BuyResponse.insufficientAllowance (formatUnits u USDT_DECIMALS)
        (formatUnits (chain.allowance buyer admin : ℤ) USDT_DECIMALS)).statusCode = 400) ∧
    buyTokens "0xadmin" 7 (exChain (100 * 10 ^ 6) (50 * 10 ^ 6) (.ok "0xa") (.ok "0xb")) []
        ⟨some 80, some "0xbuyer"⟩ = ([], [], .insufficientAllowance 80 50) := by
  constructor
  · intro admin now chain ledger q buyer u t hq hb hu ht hbal halw
    refine ⟨?_, rfl⟩
    simp only [buyTokens, hu, ht,
      if_neg (show ¬(q = 0 ∨ buyer = "") from not_or.mpr ⟨hq, hb⟩),
      if_neg hbal, if_pos halw]
  · decide

set_option maxRecDepth 8000 in
/-- Witness for `buyTokens_insufficient_allowance`: a 50-USDT request with
balance 100 and allowance 30 is rejected with required 50, approved 30. -/
theorem buyTokens_insufficient_allowance_witness :
    buyTokens "0xadmin" 7 (exChain (100 * 10 ^ 6) (30 * 10 ^ 6) (.ok "0xa") (.ok "0xb")) []
        ⟨some 50, some "0xbuyer"⟩ = ([], [], .insufficientAllowance 50 30) := by
  rw [(buyTokens_insufficient_allowance.1 "0xadmin" 7
      (exChain (100 * 10 ^ 6) (30 * 10 ^ 6) (.ok "0xa") (.ok "0xb")) [] 50 "0xbuyer"
      50000000 (5 * 10 ^ 37) (by decide) (by decide) (by decide) (by decide) (by decide)
      (by decide)).1]
  decide

end TokenSale

namespace TokenSale

/-! ## C5: write failures -/

/-- C5: once the presence, conversion, balance and allowance steps all pass
and a chain write is attempted, if the `transferFrom` fails, or the
`transferFrom` succeeds and the `mint` fails, the ledger gains exactly the
pending record updated to status FAILED with `txHash` still the sentinel
`"pending"`, and the response is the classified error (status 400 or 500),
never the success response: the failure is propagated, not swallowed. -/
theorem buyTokens_write_failure
    (admin : String) (now : ℕ) (chain : Chain) (ledger : List TxRecord)
    (q : ℚ) (buyer : String) (u t : ℤ) (e : JsError)
    (hq : q ≠ 0) (hb : buyer ≠ "")
    (hu : parseUnitsOfToString q USDT_DECIMALS = some u)
    (ht : parseUnitsOfToString (calculateTokenAmount (round64 q)) TOKEN_DECIMALS = some t)
    (hbal : ¬((chain.balanceOf buyer : ℤ) < u))
    (halw : ¬((chain.allowance buyer admin : ℤ) < u))
    (hfail : chain.transferFrom buyer admin u = .error e ∨
      ∃ h1, chain.transferFrom buyer admin u = .ok h1 ∧ chain.mint buyer t = .error e) :
    (buyTokens admin now chain ledger ⟨some q, some buyer⟩).1 =
      ledger ++ [⟨buyer, .BUY, calculateTokenAmount (round64 q), .FAILED, "pending", now,
        TOKEN_PRICE_USDT, q⟩] ∧
    (buyTokens admin now chain ledger ⟨some q, some buyer⟩).2.2 = classifyError e ∧
    400 ≤ (classifyError e).statusCode ∧
    ∀ h amt, classifyError e ≠ .purchaseSuccess h amt := by
  refine ⟨?_, ?_, ?_, ?_⟩
  · rcases hfail with htf | ⟨h1, htf, hmint⟩
    · simp only [buyTokens, executePurchase, hu, ht, htf,
        if_neg (show ¬(q = 0 ∨ buyer = "") from not_or.mpr ⟨hq, hb⟩),
        if_neg hbal, if_neg halw]
    · simp only [buyTokens, executePurchase, hu, ht, htf, hmint,
        if_neg (show ¬(q = 0 ∨ buyer = "") from not_or.mpr ⟨hq, hb⟩),
        if_neg hbal, if_neg halw]
  · rcases hfail with htf | ⟨h1, htf, hmint⟩
    · simp only [buyTokens, executePurchase, hu, ht, htf,
        if_neg (show ¬(q = 0 ∨ buyer = "") from not_or.mpr ⟨hq, hb⟩),
        if_neg hbal, if_neg halw]
    · simp only [buyTokens, executePurchase, hu, ht, htf, hmint,
        if_neg (show ¬(q = 0 ∨ buyer = "") from not_or.mpr ⟨hq, hb⟩),
        if_neg hbal, if_neg halw]
  · cases e <;> simp [classifyError, BuyResponse.statusCode]
  · intro h amt
    cases e <;> simp [classifyError]

set_option maxRecDepth 8000 in
/-- Witness for `buyTokens_write_failure`: the payment `transferFrom`
succeeds and the `mint` then rejects with a `CALL_EXCEPTION` — the ledger
record ends FAILED with the sentinel hash and the caller gets the classified
400 error. -/
theorem buyTokens_write_failure_witness :
    (buyTokens "0xadmin" 7 (exChain 3000000 3000000 (.ok "0xtransfer")
        (.error (.CALL_EXCEPTION (some "revert")))) [] ⟨some 2, some "0xbuyer"⟩).1 =
      [] ++ [⟨"0xbuyer", .BUY, calculateTokenAmount (round64 2), .FAILED, "pending", 7,
        TOKEN_PRICE_USDT, 2⟩] ∧
    (buyTokens "0xadmin" 7 (exChain 3000000 3000000 (.ok "0xtransfer")
        (.error (.CALL_EXCEPTION (some "revert")))) [] ⟨some 2, some "0xbuyer"⟩).2.2 =
      classifyError (.CALL_EXCEPTION (some "revert")) ∧
    400 ≤ (classifyError (.CALL_EXCEPTION (some "revert"))).statusCode :=
  ⟨(buyTokens_write_failure "0xadmin" 7 (exChain 3000000 3000000 (.ok "0xtransfer")
        (.error (.CALL_EXCEPTION (some "revert")))) [] 2 "0xbuyer" 2000000 (2 * 10 ^ 36)
      (.CALL_EXCEPTION (some "revert")) (by decide) (by decide) (by decide) (by decide)
      (by decide) (by decide) (Or.inr ⟨"0xtransfer", rfl, rfl⟩)).1,
   (buyTokens_write_failure "0xadmin" 7 (exChain 3000000 3000000 (.ok "0xtransfer")
        (.error (.CALL_EXCEPTION (some "revert")))) [] 2 "0xbuyer" 2000000 (2 * 10 ^ 36)
      (.CALL_EXCEPTION (some "revert")) (by decide) (by decide) (by decide) (by decide)
      (by decide) (by decide) (Or.inr ⟨"0xtransfer", rfl, rfl⟩)).2.1,
   (buyTokens_write_failure "0xadmin" 7 (exChain 3000000 3000000 (.ok "0xtransfer")
        (.error (.CALL_EXCEPTION (some "revert")))) [] 2 "0xbuyer" 2000000 (2 * 10 ^ 36)
      (.CALL_EXCEPTION (some "revert")) (by decide) (by decide) (by decide) (by decide)
      (by decide) (by decide) (Or.inr ⟨"0xtransfer", rfl, rfl⟩)).2.2.1⟩

/-! ## C9: rejected requests leave the ledger untouched -/

/-- C9: whenever the handler answers with one of the three precondition
rejections — missing parameters, insufficient balance, or insufficient
allowance — the ledger is exactly as before and no side effect (no save, no
chain write) happened: the PENDING insert sits after all three checks. -/
theorem buyTokens_precondition_reject_frame
    (admin : String) (now : ℕ) (chain : Chain)
    (ledger : List TxRecord) (req : BuyRequest)
    (h : (buyTokens admin now chain ledger req).2.2 = .missingParams ∨
      (∃ r a, (buyTokens admin now chain ledger req).2.2 = .insufficientBalance r a) ∨
      (∃ r a, (buyTokens admin now chain ledger req).2.2 = .insufficientAllowance r a)) :
    (buyTokens admin now chain ledger req).1 = ledger ∧
      (buyTokens admin now chain ledger req).2.1 = [] := by
  obtain ⟨oq, ob⟩ := req
  cases oq with
  | none => simp [buyTokens]
  | some q =>
    cases ob with
    | none => simp [buyTokens]
    | some buyer =>
      by_cases h0 : q = 0 ∨ buyer = ""
      · simp [buyTokens, h0]
      · cases hpu : parseUnitsOfToString q USDT_DECIMALS with
        | none => simp [buyTokens, h0, hpu]
        | some u =>
          cases hpt : parseUnitsOfToString (calculateTokenAmount (round64 q))
              TOKEN_DECIMALS with
          | none => simp [buyTokens, h0, hpu, hpt]
          | some t =>
            by_cases hbal : (chain.balanceOf buyer : ℤ) < u
            · simp [buyTokens, h0, hpu, hpt, hbal]
            · by_cases halw : (chain.allowance buyer admin : ℤ) < u
              · simp [buyTokens, h0, hpu, hpt, hbal, halw]
              · exfalso
                simp only [buyTokens, executePurchase, h0, hpu, hpt, hbal, halw,
                  if_neg h0, if_neg hbal, if_neg halw] at h
                cases htf : chain.transferFrom buyer admin u with
                | error e =>
                  rw [htf] at h
                  rcases h with h | ⟨r, a, h⟩ | ⟨r, a, h⟩ <;>
                    cases e <;> simp [classifyError] at h
                | ok h1 =>
                  rw [htf] at h
                  cases hm : chain.mint buyer t with
                  | error e =>
                    rw [hm] at h
                    rcases h with h | ⟨r, a, h⟩ | ⟨r, a, h⟩ <;>
                      cases e <;> simp [classifyError] at h
                  | ok h2 =>
                    rw [hm] at h
                    rcases h with h | ⟨r, a, h⟩ | ⟨r, a, h⟩ <;> simp at h

/-- Witness for `buyTokens_precondition_reject_frame`: a request with no
`usdtAmount` leaves a one-record ledger unchanged. -/
theorem buyTokens_precondition_reject_frame_witness :
    (buyTokens "0xadmin" 7 (exChain 0 0 (.ok "0xa") (.ok "0xb")) [sampleSuccess]
        ⟨none, some "0xbuyer"⟩).1 = [sampleSuccess] ∧
    (buyTokens "0xadmin" 7 (exChain 0 0 (.ok "0xa") (.ok "0xb")) [sampleSuccess]
        ⟨none, some "0xbuyer"⟩).2.1 = [] :=
  buyTokens_precondition_reject_frame "0xadmin" 7 (exChain 0 0 (.ok "0xa") (.ok "0xb"))
    [sampleSuccess] ⟨none, some "0xbuyer"⟩ (Or.inl (by decide))

end TokenSale

namespace TokenSale

/-! ## C6: single status transition, append-only ledger, read-only reporting -/

/-- The records written by `pendingTx.save()` during one handler run, in
order, extracted from the side-effect trace. -/
def savedRecords (events : List Event) : List TxRecord :=
  events.filterMap (fun ev => match ev with | .save r => some r | _ => none)

/-- C6: (a) every run of the purchase handler leaves the existing ledger
records untouched and appends at most one record, which is then in a
terminal state (SUCCESS or FAILED) — no record is ever deleted; (b) the save
trace of a run is either empty or exactly a PENDING insert (sentinel
`txHash`) followed by one update of that same record to a terminal status —
a record's status transitions exactly once, from PENDING to SUCCESS or
FAILED; (c) every route other than the purchase endpoint — history, stats,
export, price, allowance — leaves the ledger unchanged: the orchestrator is
the only writer. -/
theorem ledger_append_only_single_transition_readonly_reporting :
    (∀ (admin : String) (now : ℕ) (chain : Chain) (ledger : List TxRecord)
        (req : BuyRequest),
      (∃ tail, (buyTokens admin now chain ledger req).1 = ledger ++ tail ∧
        (tail = [] ∨ ∃ r, tail = [r] ∧
          (r.status = TxStatus.SUCCESS ∨ r.status = TxStatus.FAILED))) ∧
      (savedRecords (buyTokens admin now chain ledger req).2.1 = [] ∨
        ∃ p fin, savedRecords (buyTokens admin now chain ledger req).2.1 = [p, fin] ∧
          p.status = TxStatus.PENDING ∧ p.txHash = "pending" ∧
          (fin.status = TxStatus.SUCCESS ∨ fin.status = TxStatus.FAILED) ∧
          fin.buyerAddress = p.buyerAddress ∧ fin.type = p.type ∧
          fin.amount = p.amount ∧ fin.timestamp = p.timestamp ∧
          fin.tokenPrice = p.tokenPrice ∧ fin.usdtAmount = p.usdtAmount)) ∧
    (∀ (admin : String) (now : ℕ) (chain : Chain) (ledger : List TxRecord)
        (req : ApiRequest),
      (∀ b, req ≠ .buyTokens b) → (apiStep admin now chain ledger req).1 = ledger) := by
  constructor
  · intro admin now chain ledger req
    obtain ⟨oq, ob⟩ := req
    cases oq with
    | none => exact ⟨⟨[], by simp [buyTokens], Or.inl rfl⟩,
        Or.inl (by simp [buyTokens, savedRecords])⟩
    | some q =>
      cases ob with
      | none => exact ⟨⟨[], by simp [buyTokens], Or.inl rfl⟩,
          Or.inl (by simp [buyTokens, savedRecords])⟩
      | some buyer =>
        by_cases h0 : q = 0 ∨ buyer = ""
        · exact ⟨⟨[], by simp [buyTokens, h0], Or.inl rfl⟩,
            Or.inl (by simp [buyTokens, h0, savedRecords])⟩
        · cases hpu : parseUnitsOfToString q USDT_DECIMALS with
          | none => exact ⟨⟨[], by simp [buyTokens, h0, hpu], Or.inl rfl⟩,
              Or.inl (by simp [buyTokens, h0, hpu, savedRecords])⟩
          | some u =>
            cases hpt : parseUnitsOfToString (calculateTokenAmount (round64 q))
                TOKEN_DECIMALS with
            | none => exact ⟨⟨[], by simp [buyTokens, h0, hpu, hpt], Or.inl rfl⟩,
                Or.inl (by simp [buyTokens, h0, hpu, hpt, savedRecords])⟩
            | some t =>
              by_cases hbal : (chain.balanceOf buyer : ℤ) < u
              · exact ⟨⟨[], by simp [buyTokens, h0, hpu, hpt, hbal], Or.inl rfl⟩,
                  Or.inl (by simp [buyTokens, h0, hpu, hpt, hbal, savedRecords])⟩
              · by_cases halw : (chain.allowance buyer admin : ℤ) < u
                · exact ⟨⟨[], by simp [buyTokens, h0, hpu, hpt, hbal, halw], Or.inl rfl⟩,
                    Or.inl (by simp [buyTokens, h0, hpu, hpt, hbal, halw, savedRecords])⟩
                · cases htf : chain.transferFrom buyer admin u with
                  | error e =>
                    refine ⟨⟨[⟨buyer, .BUY, calculateTokenAmount (round64 q), .FAILED,
                        "pending", now, TOKEN_PRICE_USDT, q⟩], ?_,
                        Or.inr ⟨_, rfl, Or.inr rfl⟩⟩,
                      Or.inr ⟨⟨buyer, .BUY, calculateTokenAmount (round64 q), .PENDING,
                        "pending", now, TOKEN_PRICE_USDT, q⟩,
                        ⟨buyer, .BUY, calculateTokenAmount (round64 q), .FAILED,
                        "pending", now, TOKEN_PRICE_USDT, q⟩,
                        ?_, rfl, rfl, Or.inr rfl, rfl, rfl, rfl, rfl, rfl, rfl⟩⟩
                    · simp only [buyTokens, executePurchase, hpu, hpt, htf,
                        if_neg h0, if_neg hbal, if_neg halw]
                    · simp only [buyTokens, executePurchase, hpu, hpt, htf,
                        if_neg h0, if_neg hbal, if_neg halw, savedRecords, List.filterMap]
                  | ok h1 =>
                    cases hm : chain.mint buyer t with
                    | error e =>
                      refine ⟨⟨[⟨buyer, .BUY, calculateTokenAmount (round64 q), .FAILED,
                          "pending", now, TOKEN_PRICE_USDT, q⟩], ?_,
                          Or.inr ⟨_, rfl, Or.inr rfl⟩⟩,
                        Or.inr ⟨⟨buyer, .BUY, calculateTokenAmount (round64 q), .PENDING,
                          "pending", now, TOKEN_PRICE_USDT, q⟩,
                          ⟨buyer, .BUY, calculateTokenAmount (round64 q), .FAILED,
                          "pending", now, TOKEN_PRICE_USDT, q⟩,
                          ?_, rfl, rfl, Or.inr rfl, rfl, rfl, rfl, rfl, rfl, rfl⟩⟩
                      · simp only [buyTokens, executePurchase, hpu, hpt, htf, hm,
                          if_neg h0, if_neg hbal, if_neg halw]
                      · simp only [buyTokens, executePurchase, hpu, hpt, htf, hm,
                          if_neg h0, if_neg hbal, if_neg halw, savedRecords, List.filterMap]
                    | ok h2 =>
                      refine ⟨⟨[⟨buyer, .BUY, calculateTokenAmount (round64 q), .SUCCESS,
                          h2, now, TOKEN_PRICE_USDT, q⟩], ?_,
                          Or.inr ⟨_, rfl, Or.inl rfl⟩⟩,
                        Or.inr ⟨⟨buyer, .BUY, calculateTokenAmount (round64 q), .PENDING,
                          "pending", now, TOKEN_PRICE_USDT, q⟩,
                          ⟨buyer, .BUY, calculateTokenAmount (round64 q), .SUCCESS,
                          h2, now, TOKEN_PRICE_USDT, q⟩,
                          ?_, rfl, rfl, Or.inl rfl, rfl, rfl, rfl, rfl, rfl, rfl⟩⟩
                      · simp only [buyTokens, executePurchase, hpu, hpt, htf, hm,
                          if_neg h0, if_neg hbal, if_neg halw]
                      · simp only [buyTokens, executePurchase, hpu, hpt, htf, hm,
                          if_neg h0, if_neg hbal, if_neg halw, savedRecords, List.filterMap]
  · intro admin now chain ledger req h
    cases req with
    | buyTokens b => exact absurd rfl (h b)
    | tokenPrice => rfl
    | usdtAllowance addr => cases addr with
      | none => rfl
      | some a =>
        simp only [apiStep]
        split <;> rfl
    | transactionHistory qy => rfl
    | stats qy => rfl
    | exportTransactions addr fmt => cases addr with
      | none => rfl
      | some a =>
        simp only [apiStep]
        split <;> rfl

/-- Witness for
`ledger_append_only_single_transition_readonly_reporting`: a stats request
leaves a one-record ledger unchanged. -/
theorem ledger_append_only_single_transition_readonly_reporting_witness :
    (apiStep "0xadmin" 7 (exChain 0 0 (.ok "0xa") (.ok "0xb")) [sampleSuccess]
        (.stats ⟨none, none⟩)).1 = [sampleSuccess] :=
  ledger_append_only_single_transition_readonly_reporting.2 "0xadmin" 7
    (exChain 0 0 (.ok "0xa") (.ok "0xb")) [sampleSuccess] (.stats ⟨none, none⟩)
    (fun _ h => ApiRequest.noConfusion h)

end TokenSale

namespace TokenSale

/-! ## C7: transaction-history pagination -/

/-- Natural ceiling division `(n + s - 1) / s` — the handler's
`Math.ceil(total / limit)` (server.js line 264) — agrees with the
mathematical ceiling of `n / s` for positive `s`. -/
lemma pages_eq_ceil (n s : ℕ) (hs : 0 < s) :
    (((n + s - 1) / s : ℕ) : ℤ) = ⌈(n : ℚ) / (s : ℚ)⌉ := by
  have hs' : (0 : ℚ) < (s : ℚ) := by exact_mod_cast hs
  have hmod := Nat.div_add_mod (n + s - 1) s
  have hlt : (n + s - 1) % s < s := Nat.mod_lt _ hs
  have h1 : n ≤ s * ((n + s - 1) / s) := by omega
  have h2 : s * ((n + s - 1) / s) < n + s := by omega
  have hc2 : ((s : ℚ)) * (((n + s - 1) / s : ℕ) : ℚ) < (n : ℚ) + s := by exact_mod_cast h2
  have hc1 : (n : ℚ) ≤ ((s : ℚ)) * (((n + s - 1) / s : ℕ) : ℚ) := by exact_mod_cast h1
  symm
  rw [Int.ceil_eq_iff]
  rw [Int.cast_natCast]
  constructor
  · rw [lt_div_iff₀ hs']
    nlinarith [hc2]
  · rw [div_le_iff₀ hs']
    nlinarith [hc1]

/-- C7: for every history request with an address, the handler returns the
records matching the buyer-address, type, status and date filters, sorted
newest-first, skipping `(page - 1) * limit` and keeping at most `limit` of
them; `total` is the count of all matching records, `pages` is
`Math.ceil(total / limit)` (for a positive limit), and `page` and `limit`
default to 1 and 10 when the query omits them (the `getD` defaults in the
conclusion). -/
theorem getHistory_pagination (ledger : List TxRecord) (qy : HistoryQuery)
    (addr : String) (haddr : qy.address = some addr) (hne : addr ≠ "")
    (hlim : 0 < qy.limit.getD 10) :
    ∃ txs,
      getHistory ledger qy = .ok txs (ledger.filter (matchesHistory qy addr)).length
        (qy.page.getD 1) (qy.limit.getD 10)
        (((ledger.filter (matchesHistory qy addr)).length + qy.limit.getD 10 - 1) /
          qy.limit.getD 10) ∧
      txs.length ≤ qy.limit.getD 10 ∧
      (∀ r ∈ txs, matchesHistory qy addr r = true) ∧
      txs.Pairwise (fun a b => b.timestamp ≤ a.timestamp) ∧
      (((((ledger.filter (matchesHistory qy addr)).length + qy.limit.getD 10 - 1) /
          qy.limit.getD 10 : ℕ) : ℤ) =
        ⌈((ledger.filter (matchesHistory qy addr)).length : ℚ) / (qy.limit.getD 10 : ℚ)⌉) := by
  refine ⟨((sortNewestFirst (ledger.filter (matchesHistory qy addr))).drop
      ((qy.page.getD 1 - 1) * qy.limit.getD 10)).take (qy.limit.getD 10),
    ?_, List.length_take_le _ _, ?_, ?_, pages_eq_ceil _ _ hlim⟩
  · obtain ⟨oaddr, opage, olimit, otype, ostatus, ostart, oend⟩ := qy
    simp only [HistoryQuery.address] at haddr
    subst haddr
    simp only [getHistory, if_neg hne]
  · intro r hr
    have hr1 := List.mem_of_mem_take hr
    have hr2 := List.mem_of_mem_drop hr1
    simp only [sortNewestFirst, List.mem_insertionSort] at hr2
    exact List.of_mem_filter hr2
  · haveI : IsTotal TxRecord (fun a b => b.timestamp ≤ a.timestamp) :=
      ⟨fun a b => le_total _ _⟩
    haveI : IsTrans TxRecord (fun a b => b.timestamp ≤ a.timestamp) :=
      ⟨fun a b c hab hbc => le_trans hbc hab⟩
    exact List.Pairwise.sublist
      ((List.take_sublist _ _).trans (List.drop_sublist _ _))
      (List.sorted_insertionSort _ _)

/-- The history query used by `getHistory_pagination_witness`: address only,
page and limit omitted (so they default to 1 and 10). -/
def sampleHistoryQuery : HistoryQuery := ⟨some "0xa", none, none, none, none, none, none⟩

/-- Witness for `getHistory_pagination` on a two-record ledger with page and
limit omitted. -/
theorem getHistory_pagination_witness :
    ∃ txs,
      getHistory [sampleSuccess, sampleFailed] sampleHistoryQuery =
        .ok txs ([sampleSuccess, sampleFailed].filter
            (matchesHistory sampleHistoryQuery "0xa")).length
          (sampleHistoryQuery.page.getD 1) (sampleHistoryQuery.limit.getD 10)
          ((([sampleSuccess, sampleFailed].filter
              (matchesHistory sampleHistoryQuery "0xa")).length +
            sampleHistoryQuery.limit.getD 10 - 1) / sampleHistoryQuery.limit.getD 10) ∧
      txs.length ≤ sampleHistoryQuery.limit.getD 10 ∧
      (∀ r ∈ txs, matchesHistory sampleHistoryQuery "0xa" r = true) ∧
      txs.Pairwise (fun a b => b.timestamp ≤ a.timestamp) ∧
      ((((([sampleSuccess, sampleFailed].filter
            (matchesHistory sampleHistoryQuery "0xa")).length +
          sampleHistoryQuery.limit.getD 10 - 1) / sampleHistoryQuery.limit.getD 10 : ℕ) : ℤ) =
        ⌈(([sampleSuccess, sampleFailed].filter
            (matchesHistory sampleHistoryQuery "0xa")).length : ℚ) /
          (sampleHistoryQuery.limit.getD 10 : ℚ)⌉) :=
  getHistory_pagination [sampleSuccess, sampleFailed] sampleHistoryQuery "0xa" rfl
    (by decide) (by decide)

/-! ## C8: stats aggregation -/

set_option maxRecDepth 8000 in
/-- C8: for every ledger and date filter, the stats aggregation restricts to
SUCCESS BUY records within the range: `totalUsdtRaised` is the arithmetic
sum of their `usdtAmount` values, `topBuyers` is sorted descending by each
buyer's summed stablecoin spend and holds at most 10 entries, and
`dailyStats` is grouped by calendar day in strictly ascending order; on the
two-record example ledger (usdtAmount 10 and 20, same day) the response is
exactly one daily entry with `usdtRaised` 30 and `transactionCount` 2. -/
theorem getStats_aggregation :
    (∀ (ledger : List TxRecord) (qy : StatsQuery),
      (getStats ledger qy).totalStats.totalUsdtRaised =
        ((ledger.filter (statsMatch qy)).map TxRecord.usdtAmount).sum ∧
      (getStats ledger qy).topBuyers.Pairwise (fun a b => b.totalUsdt ≤ a.totalUsdt) ∧
      (getStats ledger qy).topBuyers.length ≤ 10 ∧
      (getStats ledger qy).dailyStats.Pairwise (fun a b => a.day < b.day)) ∧
    getStats [⟨"0xa", .BUY, 10, .SUCCESS, "0xh1", 1000, 1, 10⟩,
        ⟨"0xb", .BUY, 20, .SUCCESS, "0xh2", 2000, 1, 20⟩] ⟨none, none⟩ =
      ⟨⟨30, 30, 2, 15⟩, [⟨0, 30, 30, 2⟩],
       [⟨"0xb", 20, 20, 1⟩, ⟨"0xa", 10, 10, 1⟩]⟩ := by
  constructor
  · intro ledger qy
    refine ⟨?_, ?_, ?_, ?_⟩
    · by_cases hm : (ledger.filter (statsMatch qy)).isEmpty
      · rw [List.isEmpty_iff] at hm
        simp [getStats, hm]
      · simp [getStats, hm]
    · haveI : IsTotal BuyerStat (fun a b => b.totalUsdt ≤ a.totalUsdt) :=
        ⟨fun a b => le_total _ _⟩
      haveI : IsTrans BuyerStat (fun a b => b.totalUsdt ≤ a.totalUsdt) :=
        ⟨fun a b c hab hbc => le_trans hbc hab⟩
      exact List.Pairwise.sublist (List.take_sublist _ _)
        (List.sorted_insertionSort _ _)
    · exact List.length_take_le _ _
    · have hnd : (((ledger.filter (statsMatch qy)).map
          (fun r => r.timestamp / msPerDay)).dedup.insertionSort (· ≤ ·)).Nodup :=
        (List.perm_insertionSort _ _).nodup_iff.mpr (List.nodup_dedup _)
      have hsorted : (((ledger.filter (statsMatch qy)).map
          (fun r => r.timestamp / msPerDay)).dedup.insertionSort (· ≤ ·)).Pairwise
            (· ≤ ·) :=
        List.sorted_insertionSort _ _
      have hlt : (((ledger.filter (statsMatch qy)).map
          (fun r => r.timestamp / msPerDay)).dedup.insertionSort (· ≤ ·)).Pairwise
            (· < ·) :=
        (hsorted.and hnd).imp (fun hab => lt_of_le_of_ne hab.1 hab.2)
      exact List.pairwise_map.mpr hlt
  · decide

end TokenSale
